import Mathlib

/-!
Shallow embedding of the LBP (Liquidity Bootstrapping Pool) runtime module of
the kaupangdx chain, from `src/packages/chain/src/runtime/lbp/lbp.ts`,
`src/packages/chain/src/runtime/lbp/pool-lbp.ts` (the `FeeLBP` / `PoolLBP`
structs) and `src/packages/chain/src/runtime/token-registry.ts`.

Modelling conventions:
* `UInt64` / `Balance` / `TokenId` values from `@proto-kit/library` are
  modelled as `Nat`.  `div` is truncating natural division, matching the
  library's integer division; everywhere the source divides it first pads a
  possibly-zero divisor with 1 (`paddedDivisor`) or the divisor is checked,
  so the `Nat.div x 0 = 0` corner is never what the embedding's value
  depends on, except where noted.
* `Provable.if(cond, T, a, b)` (a branchless select, both branches always
  computed) is the ordinary conditional `if cond then a else b`, as the
  repository's own design notes state.
* protokit `assert(cond, msg)` aborts the whole transaction with `msg`; a
  method body is modelled as `Except String α`, failing with the message of
  the first failing assertion in source order.
* State reads (`StateMap.get`) are passed in explicitly as parameters or in
  a small state structure; hash-derived identifiers (`PoolKey`,
  `LPTokenId`, `FeeCollectorAssetKey`, Poseidon-based) are opaque to all
  the logic proved about, so the derived ids are parameters and the
  looked-up values are fields of the state.
-/

namespace Kaupang

/-- `MAX_WEIGHT` from lbp.ts: max weight corresponds to 100%. -/
def MAX_WEIGHT : Nat := 100000000

/-- `MAX_SALE_DURATION` from lbp.ts: 14 days worth of seconds/blocks. -/
def MAX_SALE_DURATION : Nat := 60 * 60 * 24 * 14

/-- Error strings from the `errors` object in lbp.ts. -/
def tokensNotDistinctErr : String := "Tokens must be different"

def poolAlreadyExistsErr : String := "Pool already exists"

def poolDoesNotExistErr : String := "Pool does not exist"

def amountOutIsInsufficientErr : String := "Amount out is insufficient"

def feeCollectorWithAssetAlreadyUsedErr : String := "Not more than one fee collector per asset id"

def invalidBlockRangeErr : String := "Invalid block range"

def maxSaleDurationExceededErr : String := "Duration of the LBP sale should not exceed 2 weeks"

def invalidWeightErr : String := "Invalid weight"

def feeAmountInvalidErr : String := "Invalid fee amount"

def saleIsNotRunningErr : String := "Sale is not running"

/-- The "denominator is zero" assertion message used inline in
`calculateTokenOutAmountFromReserves` and `calculateAmountInFromReserves`. -/
def denominatorIsZeroErr : String := "denominator is zero"

/-- `@proto-kit/library` `UInt64.sub` rejects underflow; modelled as a
distinct failure message (the exact library text is external to the repo). -/
def uintUnderflowErr : String := "UInt64 subtraction underflow"

/-- `@proto-kit/library` `UInt64.div` rejects a zero divisor when it is not
padded first; modelled as a distinct failure message. -/
def divisionByZeroErr : String := "division by zero"

/-- `FeeLBP` struct from pool-lbp.ts: a fee ratio with numerator `fee0`
and denominator `fee1`. -/
structure FeeLBP where
  fee0 : Nat
  fee1 : Nat
deriving Repr, DecidableEq

/-- `FeeLBP.defaultRepayFee()` from pool-lbp.ts: `(2, 10)`, inspired by the
hydra dx repay fee. -/
def FeeLBP.defaultRepayFee : FeeLBP := { fee0 := 2, fee1 := 10 }

/-- `AssetPair` as instantiated in lbp.ts `createPool`:
`{ tokenAccumulatedId, tokenSoldId }`. -/
structure AssetPair where
  tokenAccumulatedId : Nat
  tokenSoldId : Nat
deriving Repr, DecidableEq

/-- `PoolLBP` struct from pool-lbp.ts.  The source field `end` is a Lean
keyword, embedded as `endB`. -/
structure PoolLBP where
  owner : Nat
  start : Nat
  endB : Nat
  assets : AssetPair
  initialWeight : Nat
  finalWeight : Nat
  fee : FeeLBP
  feeCollector : Nat
  repayTarget : Nat
deriving Repr, DecidableEq

/-- `isValidWeight` from lbp.ts:
`weight ≥ MAX_WEIGHT/50 && weight < MAX_WEIGHT` (minimum allowed weight is
2%). -/
def isValidWeight (weight : Nat) : Bool :=
  decide (MAX_WEIGHT / 50 ≤ weight) && decide (weight < MAX_WEIGHT)

/-- `isPoolRunning` from lbp.ts: true if `now` is in the closed interval
`[pool.start, pool.end]`; the block height `now` is read from the network
and passed explicitly here. -/
def isPoolRunning (now : Nat) (poolData : PoolLBP) : Bool :=
  decide (poolData.start ≤ now) && decide (poolData.endB ≥ now)

/-- `calculatePoolTradeFee(amount, fee0, fee1)` from lbp.ts.
Source comment: "0 if one of the fee is 0, 1 if fee are the same or
amount/fee1*fee0".  Note the last select (`isAmount`) is applied after the
zero select, so it wins whenever `fee1 = fee0` — including `fee0 = fee1 = 0`. -/
def calculatePoolTradeFee (amount fee0 fee1 : Nat) : Nat :=
  let numerator := fee0
  let denominator := fee1
  let amountIn := amount
  let isZero := decide (numerator = 0) || decide (denominator = 0)
  let isAmount := decide (denominator = numerator)
  let paddedDivisor := if isZero then 1 else denominator
  let amountCalculated := if isZero then 0 else amountIn / paddedDivisor * numerator
  if isAmount then amount else amountCalculated

/-- `isRepayFeeApplied(poolData)` from lbp.ts: the repay fee is applied while
the cumulative collected fee for the pool's (feeCollector, accumulating
asset) key — the state lookup, passed here as `currentCollected` — is
strictly below the pool's `repayTarget`. -/
def isRepayFeeApplied (currentCollected : Nat) (poolData : PoolLBP) : Bool :=
  decide (currentCollected < poolData.repayTarget)

/-- `calculateFees(pool, amount)` from lbp.ts: substitutes
`FeeLBP.defaultRepayFee()` for the pool's configured fee while
`isRepayFeeApplied`, then applies `calculatePoolTradeFee`. -/
def calculateFees (currentCollected : Nat) (pool : PoolLBP) (amount : Nat) : Nat :=
  let fee := if isRepayFeeApplied currentCollected pool then FeeLBP.defaultRepayFee else pool.fee
  calculatePoolTradeFee amount fee.fee0 fee.fee1

/-- `calculateLinearWeight(startX, endX, startY, endY, at)` from lbp.ts.
The source asserts `poolEnded.not()`, `poolNotStarted.not()` and finally
`dx > 0`, each with the `SaleIsNotRunning` message, in that order; the
branchless clamped selects (`endGreater`, `atGreater`) are kept even though
on the non-failing path they equal `endX` and `at`. -/
def calculateLinearWeight (startX endX startY endY a : Nat) : Except String Nat :=
  let poolEnded := decide (endX < a)
  let poolNotStarted := decide (a < startX)
  if poolEnded then .error saleIsNotRunningErr
  else if poolNotStarted then .error saleIsNotRunningErr
  else
    let endGreater := if poolEnded then a else endX
    let atGreater := if poolNotStarted then startX else a
    let d1 := endGreater - a
    let d2 := atGreater - startX
    let dx := endGreater - startX
    let dxGreaterThanZero := decide (dx > 0)
    let paddedDivisor := if !dxGreaterThanZero then 1 else dx
    if !dxGreaterThanZero then .error saleIsNotRunningErr
    else
      let leftPart := startY * d1
      let rightPart := endY * d2
      .ok ((leftPart + rightPart) / paddedDivisor)

/-- Checked subtraction: `@proto-kit/library` `UInt64.sub` rejects
underflow. -/
def checkedSub (a b : Nat) : Except String Nat :=
  if a < b then .error uintUnderflowErr else .ok (a - b)

/-- `calculateTokenOutAmountFromReserves` from lbp.ts.  The block height
`now` is read from the network and passed explicitly.  Failure order
follows the source: the asserts inside `calculateLinearWeight` fire when it
is called (line 190), before the `denominator is zero` assert (line 197);
`MAX_WEIGHT.sub(linearWeight)` underflow and the unpadded division by
`weightOutRatio` are library-level failures on the two final operations. -/
def calculateTokenOutAmountFromReserves
    (reserveIn reserveOut amountIn weightIn weightOut startB endB now : Nat) :
    Except String Nat := do
  let numerator := amountIn * reserveOut
  let denominator := reserveIn + amountIn
  let linearWeight ← calculateLinearWeight startB endB weightIn weightOut now
  let adjustedDenominator := if denominator = 0 then 1 else denominator
  if denominator ≠ adjustedDenominator then .error denominatorIsZeroErr
  else
    let amountOut := numerator / adjustedDenominator
    let weightOutRatio ← checkedSub MAX_WEIGHT linearWeight
    if weightOutRatio = 0 then .error divisionByZeroErr
    else
      let lbpPrice := amountOut * linearWeight / weightOutRatio
      .ok lbpPrice

/-- `calculateTokenOutAmount` from lbp.ts: picks `weightIn`/`weightOut` by
whether `tokenIn` is the pool's accumulating asset, then delegates to
`calculateTokenOutAmountFromReserves`.  The two reserves are the pool
account's balances of `tokenIn` and `tokenOut`, passed explicitly. -/
def calculateTokenOutAmount (tokenIn amountIn : Nat) (poolData : PoolLBP)
    (reserveIn reserveOut now : Nat) : Except String Nat :=
  let weightIn := if tokenIn = poolData.assets.tokenAccumulatedId
    then poolData.initialWeight else poolData.finalWeight
  let weightOut := if tokenIn = poolData.assets.tokenAccumulatedId
    then poolData.finalWeight else poolData.initialWeight
  calculateTokenOutAmountFromReserves reserveIn reserveOut amountIn
    weightIn weightOut poolData.start poolData.endB now

/-- `calculateAmountInFromReserves` from lbp.ts:
`reserveIn * amountOut / (reserveOut - amountOut)` with the same
padded-then-asserted zero-denominator guard. -/
def calculateAmountInFromReserves (reserveIn reserveOut amountOut : Nat) :
    Except String Nat := do
  let numerator := reserveIn * amountOut
  let denominator ← checkedSub reserveOut amountOut
  let adjustedDenominator := if denominator = 0 then 1 else denominator
  if denominator ≠ adjustedDenominator then .error denominatorIsZeroErr
  else .ok (numerator / adjustedDenominator)

/-- The state that `sellPath` reads: the pool-store lookup for the derived
pool key, the block height, the pool account's balances of the two traded
tokens, and the cumulative-fee lookup for the pool's
(feeCollector, accumulating asset) key. -/
structure SellState where
  poolIsSome : Bool
  poolData : PoolLBP
  now : Nat
  reserveIn : Nat
  reserveOut : Nat
  currentCollected : Nat
deriving Repr, DecidableEq

/-- The effects `sellPath` commits on success: the updated cumulative fee
entry, and the amounts of the three ledger transfers (fee to the fee
collector — from the seller if the fee asset is `tokenIn`, otherwise from
the pool account —, `amountIn` of `tokenIn` from seller to pool,
`amountOut` of `tokenOut` from pool to seller).  The Balances ledger itself
is the external module `../balances`, outside the embedded core. -/
structure SellResult where
  newCollected : Nat
  feeAmount : Nat
  feePayerIsSeller : Bool
  amountIn : Nat
  amountOut : Nat
deriving Repr, DecidableEq

/-- `sellPath` from lbp.ts (the `seller` identity does not affect any
computed value and is omitted; the fee payer side is reported as a flag). -/
def sellPath (st : SellState) (tokenIn tokenOut amountIn amountOutMinLimit : Nat) :
    Except String SellResult :=
  if !st.poolIsSome then .error poolDoesNotExistErr
  else
    let poolData := st.poolData
    let _ := tokenOut
    if !(isPoolRunning st.now poolData) then .error saleIsNotRunningErr
    else do
      let calculatedAmountOut ←
        calculateTokenOutAmount tokenIn amountIn poolData st.reserveIn st.reserveOut st.now
      let feeAsset := poolData.assets.tokenAccumulatedId
      let feeAmount := if feeAsset = tokenIn
        then calculateFees st.currentCollected poolData amountIn
        else calculateFees st.currentCollected poolData calculatedAmountOut
      let amountWithouFee ← if feeAsset = tokenIn
        then checkedSub amountIn feeAmount
        else checkedSub calculatedAmountOut feeAmount
      let amountOut := amountWithouFee
      if !(decide (amountOut ≥ amountOutMinLimit)) then .error amountOutIsInsufficientErr
      else
        let newTotal := st.currentCollected + feeAmount
        .ok { newCollected := newTotal, feeAmount := feeAmount,
              feePayerIsSeller := decide (feeAsset = tokenIn),
              amountIn := amountIn, amountOut := amountOut }

/-- State of the `TokenRegistry` module from token-registry.ts: the
index-to-id entries, the incrementing counter, and the inverse
id-to-index entries (`tokenIdList`), newest first. -/
structure TokenRegistryState where
  tokenIds : List (Nat × Nat)
  lastTokenIdId : Nat
  tokenIdList : List (Nat × Nat)
deriving Repr, DecidableEq

/-- `tokenIdExist` from token-registry.ts: membership in the inverse
mapping. -/
def tokenIdExist (st : TokenRegistryState) (tokenId : Nat) : Bool :=
  (st.tokenIdList.find? (fun e => e.1 == tokenId)).isSome

/-- `addTokenPair` from token-registry.ts.  The two Poseidon-derived LP
token ids for the pair (XYK-derived and LBP-derived) are passed in as the
opaque values `lpTokenIdXyk`, `lpTokenIdLbp`.  The registry entry is
written unconditionally; the collision information is only the returned
`success` flag (`!existXyk && !(checkLbp && existLbp)`). -/
def addTokenPair (st : TokenRegistryState) (lpTokenIdXyk lpTokenIdLbp : Nat)
    (isXyk checkLbp : Bool) : TokenRegistryState × Bool :=
  let existXyk := tokenIdExist st lpTokenIdXyk
  let existLbp := tokenIdExist st lpTokenIdLbp
  let tokenIdToAdd := if isXyk then lpTokenIdXyk else lpTokenIdLbp
  let nextTokenIdId := st.lastTokenIdId + 1
  let st2 : TokenRegistryState :=
    { tokenIds := (nextTokenIdId, tokenIdToAdd) :: st.tokenIds
      lastTokenIdId := nextTokenIdId
      tokenIdList := (tokenIdToAdd, nextTokenIdId) :: st.tokenIdList }
  let success := !existXyk && !(checkLbp && existLbp)
  (st2, success)

/-- The state that `createPool` reads: whether the derived pool key is
already in the pool store, whether the derived fee-collector-asset key is
already in the fee ledger, the token registry state, and the block
height. -/
structure CreateState where
  poolIsSome : Bool
  feeCollectedIsSome : Bool
  registry : TokenRegistryState
  now : Nat
deriving Repr, DecidableEq

/-- The effects `createPool` commits on success: the two liquidity
transfers from the creator to the pool account, the registry update, the
LP-token mint to the creator, the stored pool record, and the zeroed
fee-collected entry. -/
structure CreateResult where
  registry : TokenRegistryState
  transferredA : Nat
  transferredB : Nat
  lpMintedSupply : Nat
  pool : PoolLBP
  feeCollectedInit : Nat
deriving Repr, DecidableEq

/-- `createPool` from lbp.ts.  Assertions are checked in source order.
`max2Weeks` uses truncated subtraction (`end.sub(start)`; when
`start ≥ end` the preceding `startLessThanEnd` assertion already fails).
The LP supply select is the source's
`Provable.if(tokenAId.greaterThan(tokenBId), tokenAAmount, tokenBAmount)` —
it compares the token IDS, while the source's own inline comment says
"if tokenA supply is greater than tokenB supply, use tokenA supply,
otherwise use tokenB supply".  The `success` flag returned by
`addTokenPair` is discarded, exactly as the source discards it; no
assertion depends on it. -/
def createPool (st : CreateState)
    (creator tokenAId tokenBId tokenAAmount tokenBAmount startB endB
      initialWeight finalWeight : Nat)
    (fee : FeeLBP) (feeCollector repayTarget : Nat)
    (lpTokenIdXyk lpTokenIdLbp : Nat) : Except String CreateResult :=
  let areTokensDistinct := !(decide (tokenAId = tokenBId))
  let poolDoesNotExist := !st.poolIsSome
  let feeCollectorAssetDoesNotExist := !st.feeCollectedIsSome
  let nowLessThanStart := decide (st.now < startB)
  let startLessThanEnd := decide (startB < endB)
  let max2Weeks := decide (endB - startB ≤ MAX_SALE_DURATION)
  let validInitialWeight := isValidWeight initialWeight
  let validFinalWeight := isValidWeight finalWeight
  let validFeeAmount := decide (0 < fee.fee1)
  if !areTokensDistinct then .error tokensNotDistinctErr
  else if !poolDoesNotExist then .error poolAlreadyExistsErr
  else if !feeCollectorAssetDoesNotExist then .error feeCollectorWithAssetAlreadyUsedErr
  else if !nowLessThanStart then .error invalidBlockRangeErr
  else if !startLessThanEnd then .error invalidBlockRangeErr
  else if !max2Weeks then .error maxSaleDurationExceededErr
  else if !validInitialWeight then .error invalidWeightErr
  else if !validFinalWeight then .error invalidWeightErr
  else if !validFeeAmount then .error feeAmountInvalidErr
  else
    let initialLPTokenSupply := if tokenBId < tokenAId then tokenAAmount else tokenBAmount
    let regAndSuccess := addTokenPair st.registry lpTokenIdXyk lpTokenIdLbp false true
    let assets : AssetPair := { tokenAccumulatedId := tokenAId, tokenSoldId := tokenBId }
    let poolLBP : PoolLBP :=
      { owner := creator, start := startB, endB := endB, assets := assets,
        initialWeight := initialWeight, finalWeight := finalWeight,
        fee := fee, feeCollector := feeCollector, repayTarget := repayTarget }
    .ok { registry := regAndSuccess.1, transferredA := tokenAAmount,
          transferredB := tokenBAmount, lpMintedSupply := initialLPTokenSupply,
          pool := poolLBP, feeCollectedInit := 0 }

/-- Spec error identifier for migration before the pool's end. -/
def poolNotEndedErr : String := "PoolNotEnded"

/-- Spec error identifier for migration of a drained pool. -/
def poolEmptyErr : String := "PoolEmpty"

/-- Modelled from the spec: the `migratePool` operation.  The repository's
tests call `lbp.migratePoolSigned(tokenA, tokenB)` (lbp.test.ts), but no
migrate method is present in the available lbp.ts, so the operation is
embedded from spec section 4.7: fail with `PoolNotEnded` unless
`currentHeight > record.end`; fail with `PoolEmpty` unless both of the LBP
pool account's token reserves are nonzero; otherwise transfer both
reserves in full to the constant-product (XYK) pool for the pair, leaving
the LBP pool account at zero for both tokens.  `recordEnd` is the stored
pool record's `end`; the record itself is left unmodified. -/
structure MigrateState where
  now : Nat
  recordEnd : Nat
  reserveA : Nat
  reserveB : Nat
  xykReserveA : Nat
  xykReserveB : Nat
deriving Repr, DecidableEq

/-- Modelled from the spec: state transition of `migratePool` (see
`MigrateState`). -/
def migratePool (st : MigrateState) : Except String MigrateState :=
  if st.now ≤ st.recordEnd then .error poolNotEndedErr
  else if st.reserveA = 0 || st.reserveB = 0 then .error poolEmptyErr
  else
    .ok { st with
          reserveA := 0
          reserveB := 0
          xykReserveA := st.xykReserveA + st.reserveA
          xykReserveB := st.xykReserveB + st.reserveB }

/-! ## Helper lemmas about `calculateLinearWeight` -/

/-- On an in-range evaluation point of a positive-width window,
`calculateLinearWeight` succeeds with the interpolation formula. -/
theorem calculateLinearWeight_in_range (startX endX startY endY a : Nat)
    (h1 : startX ≤ a) (h2 : a ≤ endX) (h3 : startX < endX) :
    calculateLinearWeight startX endX startY endY a
      = .ok ((startY * (endX - a) + endY * (a - startX)) / (endX - startX)) := by
  have hne : ¬ endX < a := Nat.not_lt.2 h2
  have hns : ¬ a < startX := Nat.not_lt.2 h1
  have hdx : 0 < endX - startX := Nat.sub_pos_of_lt h3
  simp [calculateLinearWeight, hne, hns, hdx, Nat.pos_iff_ne_zero.1 hdx]

/-- `calculateLinearWeight` fails (necessarily with `SaleIsNotRunning`)
exactly when the evaluation point is out of range or the window has zero
width. -/
theorem calculateLinearWeight_error_iff (startX endX startY endY a : Nat) :
    calculateLinearWeight startX endX startY endY a = .error saleIsNotRunningErr
      ↔ (endX < a ∨ a < startX ∨ endX ≤ startX) := by
  by_cases h1 : endX < a
  · simp [calculateLinearWeight, h1]
  · by_cases h2 : a < startX
    · simp [calculateLinearWeight, h1, h2]
    · by_cases h3 : 0 < endX - startX
      · simp only [calculateLinearWeight]
        simp [h1, h2, h3]
        omega
      · simp only [calculateLinearWeight]
        simp [h1, h2, h3]
        omega

/-! ## Claim theorems -/

/-- C1: the claim's piecewise reference definition puts the zero-fee case
first, requiring `calculatePoolTradeFee(amount, 0, 0) = 0`; the code's
final `fee1 = fee0` select overrides the zero-fee select, so at
amount = 1000, fee0 = 0, fee1 = 0 the code returns the full amount 1000.
The repository's own test (the `zeroFee` case in lbp.test.ts) expects 0
there.  For a genuinely one-sided zero fee the zero case does apply. -/
theorem C1_calculatePoolTradeFee_both_zero_returns_amount :
    calculatePoolTradeFee 1000 0 0 = 1000 ∧
      calculatePoolTradeFee 1000 0 1 = 0 ∧ calculatePoolTradeFee 1000 1 0 = 0 := by
  refine ⟨rfl, rfl, rfl⟩

/-- C2: the claim (and the source's own inline comment) say the initial LP
supply is the larger of the two deposited amounts; the code selects by
comparing the token IDS (`tokenAId.greaterThan(tokenBId)`).  With
tokenAId = 1 < tokenBId = 2 and deposits amountA = 100, amountB = 5, the
code mints 5 while max(100, 5) = 100. -/
theorem C2_createPool_lp_supply_ignores_amounts :
    (createPool ⟨false, false, ⟨[], 0, []⟩, 0⟩ 7 1 2 100 5 1 2 2000000 2000000
        ⟨2, 10⟩ 9 1000 50 51).map (fun r => r.lpMintedSupply) = .ok 5 ∧
      max 100 5 = 100 := by
  refine ⟨rfl, rfl⟩

/-- C4 counterexample: the claim says evaluating strictly before `startX`
returns the same result as evaluating at `startX`; in the code the
`poolNotStarted` assertion fails with `SaleIsNotRunning` at `at = 5 <
startX = 10`, while evaluation at `startX` succeeds with `startY`. -/
theorem C4_counterexample_before_start_fails :
    calculateLinearWeight 10 20 7 9 5 = .error saleIsNotRunningErr ∧
      calculateLinearWeight 10 20 7 9 10 = .ok 7 := by
  refine ⟨rfl, rfl⟩

/-- C4 (amended): `calculateLinearWeight` does not clamp: it fails with
`SaleIsNotRunning` exactly when `at > endX`, `at < startX`, or
`endX ≤ startX`; on `startX ≤ at ≤ endX` with `startX < endX` it succeeds
with the interpolated value (so extrapolation indeed never occurs, but by
rejection rather than clamping). -/
theorem C4_amended_no_clamping (startX endX startY endY a : Nat) :
    (calculateLinearWeight startX endX startY endY a = .error saleIsNotRunningErr
      ↔ (endX < a ∨ a < startX ∨ endX ≤ startX)) ∧
    (startX ≤ a → a ≤ endX → startX < endX →
      calculateLinearWeight startX endX startY endY a
        = .ok ((startY * (endX - a) + endY * (a - startX)) / (endX - startX))) := by
  exact ⟨calculateLinearWeight_error_iff startX endX startY endY a,
    fun h1 h2 h3 => calculateLinearWeight_in_range startX endX startY endY a h1 h2 h3⟩

/-- C4 witness: the amended theorem applied at the window [1000, 2000],
weights 80000 → 20000, evaluated in range at 1500. -/
theorem C4_amended_no_clamping_witness :
    calculateLinearWeight 1000 2000 80000 20000 1500 = .ok 50000 :=
  (C4_amended_no_clamping 1000 2000 80000 20000 1500).2
    (by decide) (by decide) (by decide)

/-- C6: at `at = startX` the result is exactly `startY`, at `at = endX`
exactly `endY`, and at the midpoint (when the window width is even) exactly
the truncated mean of the two weights. -/
theorem C6_linearWeight_endpoints_and_midpoint (startX endX startY endY : Nat)
    (h : startX < endX) :
    calculateLinearWeight startX endX startY endY startX = .ok startY ∧
    calculateLinearWeight startX endX startY endY endX = .ok endY ∧
    ((endX - startX) % 2 = 0 →
      calculateLinearWeight startX endX startY endY (startX + (endX - startX) / 2)
        = .ok ((startY + endY) / 2)) := by
  have hdx : 0 < endX - startX := Nat.sub_pos_of_lt h
  refine ⟨?_, ?_, ?_⟩
  · rw [calculateLinearWeight_in_range startX endX startY endY startX
      (Nat.le_refl _) (Nat.le_of_lt h) h]
    congr 1
    rw [Nat.sub_self, Nat.mul_zero, Nat.add_zero, Nat.mul_div_cancel _ hdx]
  · rw [calculateLinearWeight_in_range startX endX startY endY endX
      (Nat.le_of_lt h) (Nat.le_refl _) h]
    congr 1
    rw [Nat.sub_self, Nat.mul_zero, Nat.zero_add, Nat.mul_div_cancel _ hdx]
  · intro heven
    have hma : startX ≤ startX + (endX - startX) / 2 := Nat.le_add_right _ _
    have hmb : startX + (endX - startX) / 2 ≤ endX := by omega
    rw [calculateLinearWeight_in_range startX endX startY endY _ hma hmb h]
    have hd1 : endX - (startX + (endX - startX) / 2) = (endX - startX) / 2 := by omega
    have hd2 : startX + (endX - startX) / 2 - startX = (endX - startX) / 2 := by omega
    rw [hd1, hd2]
    congr 1
    have hcollect : startY * ((endX - startX) / 2) + endY * ((endX - startX) / 2)
        = (startY + endY) * ((endX - startX) / 2) := by ring
    rw [hcollect]
    have hsplit : endX - startX = 2 * ((endX - startX) / 2) := by omega
    have hhalf : 0 < (endX - startX) / 2 := by omega
    nth_rewrite 2 [hsplit]
    exact Nat.mul_div_mul_right _ 2 hhalf

/-- C6 witness: the repository's own linear-weight test values,
window [1000, 2000] with weights 80000 → 20000. -/
theorem C6_linearWeight_endpoints_and_midpoint_witness :
    calculateLinearWeight 1000 2000 80000 20000 1000 = .ok 80000 ∧
    calculateLinearWeight 1000 2000 80000 20000 2000 = .ok 20000 ∧
    calculateLinearWeight 1000 2000 80000 20000 1500 = .ok 50000 := by
  obtain ⟨w1, w2, w3⟩ :=
    C6_linearWeight_endpoints_and_midpoint 1000 2000 80000 20000 (by decide)
  exact ⟨w1, w2, w3 (by decide)⟩

/-- C3 counterexample: a createPool call whose fee has numerator
`fee0 = 0` (and denominator `fee1 = 1`), all other arguments valid,
succeeds — the code's `validFeeAmount` check reads `fee.fee1`, not the
numerator, so the claim "every call with fee numerator zero fails with
InvalidFee" is false. -/
theorem C3_counterexample_zero_numerator_accepted :
    (createPool ⟨false, false, ⟨[], 0, []⟩, 0⟩ 7 1 2 100 100 1 2 2000000 2000000
        ⟨0, 1⟩ 9 1000 50 51).isOk = true := by
  rfl

/-- C3 (amended): createPool requires `fee.fee1 > 0` (the DENOMINATOR of
the fee ratio): when every earlier creation check passes, the call fails
with the `FeeAmountInvalid` error ("Invalid fee amount") exactly when
`fee.fee1 = 0`, regardless of `fee.fee0`; calls with `fee.fee1 > 0` pass
this check and succeed. -/
theorem C3_amended_fee_check_is_on_denominator (st : CreateState)
    (creator tokenAId tokenBId aAmt bAmt startB endB iw fw : Nat) (fee : FeeLBP)
    (fc rt lpX lpL : Nat)
    (hdistinct : tokenAId ≠ tokenBId) (hpool : st.poolIsSome = false)
    (hfck : st.feeCollectedIsSome = false) (hnow : st.now < startB)
    (hse : startB < endB) (hdur : endB - startB ≤ MAX_SALE_DURATION)
    (hiw : isValidWeight iw = true) (hfw : isValidWeight fw = true) :
    (fee.fee1 = 0 ↔
      createPool st creator tokenAId tokenBId aAmt bAmt startB endB iw fw fee
        fc rt lpX lpL = .error feeAmountInvalidErr) ∧
    (0 < fee.fee1 →
      (createPool st creator tokenAId tokenBId aAmt bAmt startB endB iw fw fee
        fc rt lpX lpL).isOk = true) := by
  simp only [createPool, hpool, hfck, hiw, hfw]
  by_cases hfee : 0 < fee.fee1
  · simp [hdistinct, hnow, hse, hdur, hfee, Except.isOk, Except.toBool]
    omega
  · simp [hdistinct, hnow, hse, hdur, hfee]
    omega

/-- C3 witness: the amended theorem applied at a concrete call with
`fee0 = 5`, `fee1 = 0`, which fails with `FeeAmountInvalid`. -/
theorem C3_amended_fee_check_is_on_denominator_witness :
    createPool ⟨false, false, ⟨[], 0, []⟩, 0⟩ 7 1 2 100 100 1 2 2000000 2000000
        ⟨5, 0⟩ 9 1000 50 51 = .error feeAmountInvalidErr :=
  (C3_amended_fee_check_is_on_denominator ⟨false, false, ⟨[], 0, []⟩, 0⟩
      7 1 2 100 100 1 2 2000000 2000000 ⟨5, 0⟩ 9 1000 50 51
      (by decide) rfl rfl (by decide) (by decide) (by decide)
      (by decide) (by decide)).1.mp rfl

/-- C5: with the XYK-derived LP token id (here 50) for the pair already in
the registry's inverse mapping, `addTokenPair` reports the collision —
its returned success flag is false — yet `createPool` succeeds anyway
(storing the pool, minting the LP supply): the source discards
`addTokenPair`'s return value, so the whole operation does NOT fail. -/
theorem C5_createPool_ignores_registry_collision :
    (addTokenPair ⟨[(1, 50)], 1, [(50, 1)]⟩ 50 51 false true).2 = false ∧
    (createPool ⟨false, false, ⟨[(1, 50)], 1, [(50, 1)]⟩, 0⟩ 7 1 2 100 100 1 2
        2000000 2000000 ⟨2, 10⟩ 9 1000 50 51).isOk = true := by
  refine ⟨rfl, rfl⟩

/-- C7: `calculateFees` applies the boosted repay schedule (fee0 = 2,
fee1 = 10) exactly while the cumulative collected amount is strictly below
the pool's repayTarget, and the pool's own configured schedule once the
collected amount has reached it; `isRepayFeeApplied` is exactly the
strict comparison. -/
theorem C7_calculateFees_repay_switch (collected : Nat) (pool : PoolLBP)
    (amount : Nat) :
    (isRepayFeeApplied collected pool = true ↔ collected < pool.repayTarget) ∧
    (collected < pool.repayTarget →
      calculateFees collected pool amount = calculatePoolTradeFee amount 2 10) ∧
    (pool.repayTarget ≤ collected →
      calculateFees collected pool amount
        = calculatePoolTradeFee amount pool.fee.fee0 pool.fee.fee1) := by
  refine ⟨by simp [isRepayFeeApplied], ?_, ?_⟩
  · intro hlt
    simp [calculateFees, isRepayFeeApplied, hlt, FeeLBP.defaultRepayFee]
  · intro hge
    simp [calculateFees, isRepayFeeApplied, Nat.not_lt.2 hge]

/-- C7 witness: below the repay target the 20% schedule applies: a pool
configured with fee (2, 1000) still charges 2/10 on 100 while collected
0 < repayTarget 1000. -/
theorem C7_calculateFees_repay_switch_witness :
    calculateFees 0
        { owner := 7, start := 10, endB := 1010,
          assets := { tokenAccumulatedId := 0, tokenSoldId := 1 },
          initialWeight := 80000000, finalWeight := 20000000,
          fee := { fee0 := 2, fee1 := 1000 }, feeCollector := 9,
          repayTarget := 1000 } 100
      = calculatePoolTradeFee 100 2 10 :=
  (C7_calculateFees_repay_switch 0
      { owner := 7, start := 10, endB := 1010,
        assets := { tokenAccumulatedId := 0, tokenSoldId := 1 },
        initialWeight := 80000000, finalWeight := 20000000,
        fee := { fee0 := 2, fee1 := 1000 }, feeCollector := 9,
        repayTarget := 1000 } 100).2.1 (by decide)

/-- C9 (modelled from the spec, see `migratePool`): migration fails with
`PoolNotEnded` whenever the height is at most the record's end, fails with
`PoolEmpty` whenever either reserve is zero, and on success zeroes both
LBP reserves, leaves both XYK reserves strictly positive, and makes any
immediate second migration fail with `PoolEmpty`. -/
theorem C9_migratePool_lifecycle (st : MigrateState) :
    (st.now ≤ st.recordEnd → migratePool st = .error poolNotEndedErr) ∧
    (st.recordEnd < st.now → st.reserveA = 0 ∨ st.reserveB = 0 →
      migratePool st = .error poolEmptyErr) ∧
    (∀ st2, migratePool st = .ok st2 →
      st2.reserveA = 0 ∧ st2.reserveB = 0 ∧
        0 < st2.xykReserveA ∧ 0 < st2.xykReserveB ∧
        migratePool st2 = .error poolEmptyErr) := by
  refine ⟨?_, ?_, ?_⟩
  · intro hle
    simp [migratePool, hle]
  · intro hgt hz
    rcases hz with hz | hz <;> simp [migratePool, Nat.not_le.2 hgt, hz]
  · intro st2 hok
    simp only [migratePool] at hok
    by_cases hle : st.now ≤ st.recordEnd
    · simp [hle] at hok
    · by_cases hz : st.reserveA = 0 || st.reserveB = 0
      · simp [hle, hz] at hok
      · simp only [hle, hz, if_neg, Bool.false_eq_true, ite_false, Except.ok.injEq] at hok
        have hA : st.reserveA ≠ 0 := by
          intro hcontra
          simp [hcontra] at hz
        have hB : st.reserveB ≠ 0 := by
          intro hcontra
          simp [hcontra] at hz
        subst hok
        refine ⟨rfl, rfl, by simp only; omega, by simp only; omega, ?_⟩
        simp [migratePool, hle]

/-- C9 witness: migrating at height 5 with record end 10 fails with
`PoolNotEnded`. -/
theorem C9_migratePool_lifecycle_witness :
    migratePool ⟨5, 10, 3, 4, 0, 0⟩ = .error poolNotEndedErr :=
  (C9_migratePool_lifecycle ⟨5, 10, 3, 4, 0, 0⟩).1 (by decide)

/-- C10: on an in-range evaluation point of a positive-width window the
interpolated weight lies in [min startY endY, max startY endY]; hence with
both weights below `MAX_WEIGHT` the divisor
`weightOutRatio = MAX_WEIGHT - weight` of
`calculateTokenOutAmountFromReserves` is strictly positive. -/
theorem C10_linearWeight_bounded (startX endX startY endY a : Nat)
    (h1 : startX < endX) (h2 : startX ≤ a) (h3 : a ≤ endX) :
    ∃ w, calculateLinearWeight startX endX startY endY a = .ok w ∧
      min startY endY ≤ w ∧ w ≤ max startY endY ∧
      (startY < MAX_WEIGHT → endY < MAX_WEIGHT → 0 < MAX_WEIGHT - w) := by
  have hdx : 0 < endX - startX := Nat.sub_pos_of_lt h1
  have hsum : (endX - a) + (a - startX) = endX - startX := by omega
  refine ⟨_, calculateLinearWeight_in_range startX endX startY endY a h2 h3 h1,
    ?_, ?_, ?_⟩
  · rw [Nat.le_div_iff_mul_le hdx, ← hsum, Nat.mul_add]
    exact Nat.add_le_add
      (Nat.mul_le_mul_right _ (Nat.min_le_left _ _))
      (Nat.mul_le_mul_right _ (Nat.min_le_right _ _))
  · have hle : startY * (endX - a) + endY * (a - startX)
        ≤ max startY endY * (endX - startX) := by
      rw [← hsum, Nat.mul_add]
      exact Nat.add_le_add
        (Nat.mul_le_mul_right _ (Nat.le_max_left _ _))
        (Nat.mul_le_mul_right _ (Nat.le_max_right _ _))
    calc (startY * (endX - a) + endY * (a - startX)) / (endX - startX)
        ≤ max startY endY * (endX - startX) / (endX - startX) :=
          Nat.div_le_div_right hle
      _ = max startY endY := Nat.mul_div_cancel _ hdx
  · intro hs he
    have hw : (startY * (endX - a) + endY * (a - startX)) / (endX - startX)
        ≤ max startY endY := by
      have hle : startY * (endX - a) + endY * (a - startX)
          ≤ max startY endY * (endX - startX) := by
        rw [← hsum, Nat.mul_add]
        exact Nat.add_le_add
          (Nat.mul_le_mul_right _ (Nat.le_max_left _ _))
          (Nat.mul_le_mul_right _ (Nat.le_max_right _ _))
      calc (startY * (endX - a) + endY * (a - startX)) / (endX - startX)
          ≤ max startY endY * (endX - startX) / (endX - startX) :=
            Nat.div_le_div_right hle
        _ = max startY endY := Nat.mul_div_cancel _ hdx
    have hmax : max startY endY < MAX_WEIGHT := by
      rw [Nat.max_def]
      split <;> omega
    omega

/-- C10 witness: the bounds at the repository's test window, evaluated at
1500, with both weights below `MAX_WEIGHT`. -/
theorem C10_linearWeight_bounded_witness :
    ∃ w, calculateLinearWeight 1000 2000 80000 20000 1500 = .ok w ∧
      min 80000 20000 ≤ w ∧ w ≤ max 80000 20000 ∧
      (80000 < MAX_WEIGHT → 20000 < MAX_WEIGHT → 0 < MAX_WEIGHT - w) :=
  C10_linearWeight_bounded 1000 2000 80000 20000 1500
    (by decide) (by decide) (by decide)

/-! ## Helper lemmas for the sale-window characterisation of `sellPath` -/

/-- If `calculateTokenOutAmountFromReserves` fails with `SaleIsNotRunning`,
the failure came from its `calculateLinearWeight` call: every other failure
in its body carries a different message. -/
theorem calculateTokenOutAmountFromReserves_sale_error
    (rIn rOut aIn wIn wOut sX eX now : Nat) :
    calculateTokenOutAmountFromReserves rIn rOut aIn wIn wOut sX eX now
        = .error saleIsNotRunningErr →
    calculateLinearWeight sX eX wIn wOut now = .error saleIsNotRunningErr := by
  intro h
  cases hlw : calculateLinearWeight sX eX wIn wOut now with
  | error e =>
    simp only [calculateTokenOutAmountFromReserves, bind, Except.bind, hlw] at h
    exact h
  | ok v =>
    simp only [calculateTokenOutAmountFromReserves, bind, Except.bind, hlw] at h
    by_cases h1 : rIn + aIn ≠ (if rIn + aIn = 0 then 1 else rIn + aIn)
    · simp only [if_pos h1] at h
      exact absurd (Except.error.inj h) (by decide)
    · simp only [if_neg h1] at h
      simp only [checkedSub] at h
      by_cases h2 : MAX_WEIGHT < v
      · simp only [if_pos h2] at h
        exact absurd (Except.error.inj h) (by decide)
      · simp only [if_neg h2] at h
        by_cases h3 : MAX_WEIGHT - v = 0
        · simp only [if_pos h3] at h
          exact absurd (Except.error.inj h) (by decide)
        · simp only [if_neg h3] at h
          exact Except.noConfusion h


/-- If `sellPath` fails with `SaleIsNotRunning`, either the
`isPoolRunning` assertion failed or the failure came from the pricing
call: every later failure in the body carries a different message. -/
theorem sellPath_sale_error (st : SellState) (tokenIn tokenOut amountIn minL : Nat)
    (hpool : st.poolIsSome = true) :
    sellPath st tokenIn tokenOut amountIn minL = .error saleIsNotRunningErr →
    isPoolRunning st.now st.poolData = false ∨
      calculateTokenOutAmount tokenIn amountIn st.poolData st.reserveIn
          st.reserveOut st.now = .error saleIsNotRunningErr := by
  intro h
  by_cases hrun : isPoolRunning st.now st.poolData = true
  · right
    cases hcto : calculateTokenOutAmount tokenIn amountIn st.poolData st.reserveIn
        st.reserveOut st.now with
    | error e =>
      simp only [sellPath, hpool, Bool.not_true, Bool.false_eq_true, if_false,
        hrun, bind, Except.bind, hcto] at h
      have he : e = saleIsNotRunningErr := Except.error.inj h
      rw [he]
    | ok cAO =>
      simp only [sellPath, hpool, Bool.not_true, Bool.false_eq_true, if_false,
        hrun, bind, Except.bind, hcto, checkedSub] at h
      by_cases hfa : st.poolData.assets.tokenAccumulatedId = tokenIn
      · simp only [if_pos hfa] at h
        by_cases hu : amountIn < calculateFees st.currentCollected st.poolData amountIn
        · simp only [if_pos hu] at h
          exact absurd (Except.error.inj h) (by decide)
        · simp only [if_neg hu] at h
          by_cases hl : (!decide (amountIn - calculateFees st.currentCollected
              st.poolData amountIn ≥ minL)) = true
          · simp only [hl, if_true] at h
            exact absurd (Except.error.inj h) (by decide)
          · simp only [Bool.not_eq_true] at hl
            simp only [hl, Bool.false_eq_true, if_false] at h
            exact Except.noConfusion h
      · simp only [if_neg hfa] at h
        by_cases hu : cAO < calculateFees st.currentCollected st.poolData cAO
        · simp only [if_pos hu] at h
          exact absurd (Except.error.inj h) (by decide)
        · simp only [if_neg hu] at h
          by_cases hl : (!decide (cAO - calculateFees st.currentCollected
              st.poolData cAO ≥ minL)) = true
          · simp only [hl, if_true] at h
            exact absurd (Except.error.inj h) (by decide)
          · simp only [Bool.not_eq_true] at hl
            simp only [hl, Bool.false_eq_true, if_false] at h
            exact Except.noConfusion h
  · exact Or.inl (Bool.not_eq_true _ ▸ hrun)

/-- C8: for an existing pool (the pool-store lookup succeeds; stored
pools always satisfy start < end), `isPoolRunning` is true exactly on the
closed interval [start, end], and `sellPath` fails with the
`SaleIsNotRunning` error exactly when the current height is strictly
before `start` or strictly after `end`. -/
theorem C8_sellPath_sale_window (st : SellState) (tokenIn tokenOut amountIn minL : Nat)
    (hpool : st.poolIsSome = true) (hlt : st.poolData.start < st.poolData.endB) :
    (isPoolRunning st.now st.poolData = true ↔
      (st.poolData.start ≤ st.now ∧ st.now ≤ st.poolData.endB)) ∧
    (sellPath st tokenIn tokenOut amountIn minL = .error saleIsNotRunningErr ↔
      (st.now < st.poolData.start ∨ st.poolData.endB < st.now)) := by
  constructor
  · simp [isPoolRunning]
  · by_cases hrun : isPoolRunning st.now st.poolData = true
    · have hrs : st.poolData.start ≤ st.now := by
        simp [isPoolRunning] at hrun
        exact hrun.1
      have hre : st.now ≤ st.poolData.endB := by
        simp [isPoolRunning] at hrun
        exact hrun.2
      refine iff_of_false ?_ (by omega)
      intro hcontra
      rcases sellPath_sale_error st tokenIn tokenOut amountIn minL hpool hcontra with
        hfalse | hcto
      · rw [hrun] at hfalse
        exact Bool.noConfusion hfalse
      · simp only [calculateTokenOutAmount] at hcto
        have hlin := calculateTokenOutAmountFromReserves_sale_error
          st.reserveIn st.reserveOut amountIn _ _ st.poolData.start st.poolData.endB
          st.now hcto
        rw [calculateLinearWeight_error_iff] at hlin
        omega
    · have hout : st.now < st.poolData.start ∨ st.poolData.endB < st.now := by
        simp [isPoolRunning] at hrun
        omega
      simp only [sellPath, hpool, Bool.not_true, Bool.false_eq_true, if_false]
      rw [if_pos]
      · exact iff_of_true rfl hout
      · simp [hrun]

/-- C8 witness: on the repository's test pool (window [10, 1010]) at height
5, selling fails with `SaleIsNotRunning`. -/
theorem C8_sellPath_sale_window_witness :
    sellPath
      { poolIsSome := true
        poolData := { owner := 77, start := 10, endB := 1010,
                      assets := { tokenAccumulatedId := 0, tokenSoldId := 1 },
                      initialWeight := 80000000, finalWeight := 20000000,
                      fee := { fee0 := 2, fee1 := 10 }, feeCollector := 88,
                      repayTarget := 1000 }
        now := 5
        reserveIn := 1000000
        reserveOut := 1000000
        currentCollected := 0 }
      1 0 100 1 = .error saleIsNotRunningErr :=
  (C8_sellPath_sale_window
      { poolIsSome := true
        poolData := { owner := 77, start := 10, endB := 1010,
                      assets := { tokenAccumulatedId := 0, tokenSoldId := 1 },
                      initialWeight := 80000000, finalWeight := 20000000,
                      fee := { fee0 := 2, fee1 := 10 }, feeCollector := 88,
                      repayTarget := 1000 }
        now := 5
        reserveIn := 1000000
        reserveOut := 1000000
        currentCollected := 0 }
      1 0 100 1 rfl (by decide)).2.mpr (Or.inl (by decide))

end Kaupang
